import Mathlib

/-!
Verification development for the `instek` package (GW Instek power-supply
driver).  The Python source is shallowly embedded: the policy logic of the
effective `Supply.set` method (`instek/__init__.py`, the second definition,
which shadows the first), the unit-algebra classes of `instek/types/__init__.py`,
and the parsing / precheck / error-classification code of
`instek/gpd/__init__.py`.  Decimal magnitudes are modelled as `ℚ`; the serial
port is modelled as a trace of structured commands; a Python `raise` is
modelled as an error value carried next to the state and the trace issued so
far.
-/

namespace Instek

/-- Modelled from the spec: the `Tracking` enum that `instek/__init__.py`
imports from `instek.types`, where it is absent.  The three members follow
spec §3 (`TrackingMode` = {Independent, Series, Parallel}); the numeric wire
values follow the `TRACK0`/`TRACK1`/`TRACK2` commands issued by
`GPDX303S.tracking` (`instek/gpd/__init__.py` lines 101-107). -/
inductive Tracking
  | Independent
  | Series
  | Parallel
deriving DecidableEq, Repr

/-- Wire value of a tracking mode, as used in the `TRACK{value}` command. -/
def Tracking.val : Tracking → Nat
  | .Independent => 0
  | .Series => 1
  | .Parallel => 2

/-- Modelled from the spec: the `Output` enum used by `Supply.set` but defined
nowhere in the source.  `Off`/`On` carry the wire values 0/1 of the
`OUT{value}` command (spec §4.3, §6). -/
inductive Output
  | On
  | Off
deriving DecidableEq, Repr

/-- Wire value of an output request, as used in the `OUT{value}` command. -/
def Output.val : Output → Nat
  | .On => 1
  | .Off => 0

/-- Modelled from the spec: the `Beep` enum used by `Supply.set` but defined
nowhere in the source.  `Off`/`On` carry the wire values 0/1 of the
`BEEP{value}` command. -/
inductive Beep
  | On
  | Off
deriving DecidableEq, Repr

/-- Wire value of a beep request, as used in the `BEEP{value}` command. -/
def Beep.val : Beep → Nat
  | .On => 1
  | .Off => 0

/-- One positional argument of the effective `Supply.set(*args)`: the source
classifies every positional argument with `isinstance` against `Tracking`,
`Output`, `Beep`, `Channel`, `Voltage` and `Current`.  Channel markers
`Channel.One`/`Channel.Two` are the numbers 1/2; magnitudes are `ℚ` (the
source stores `Decimal` values). -/
inductive Arg
  | voltage (v : ℚ)
  | current (c : ℚ)
  | channel (n : Nat)
  | tracking (t : Tracking)
  | output (o : Output)
  | beep (b : Beep)
deriving DecidableEq, Repr

/-- Cached instrument state mirrored by `Supply`: the `__tracking`,
`__output`, `__beep`, `__channel_1_voltage`, `__channel_2_voltage`,
`__channel_1_current` and `__channel_2_current` attributes consulted and
updated by `Supply.set`. -/
structure SupplyState where
  tracking : Tracking
  output : Output
  beepState : Beep
  ch1V : ℚ
  ch2V : ℚ
  ch1C : ℚ
  ch2C : ℚ
deriving DecidableEq, Repr

/-- Modelled from the spec: one Transport exchange issued by `Supply.set`
through the (undefined in source) helpers `command`, `set_voltage` and
`set_current`.  Each constructor records the ASCII command the helper sends:
`track n` is `TRACK{n}`, `out n` is `OUT{n}`, `beepCmd n` is `BEEP{n}`,
`vset ch v` is `VSET{ch}:{v}` and `iset ch v` is `ISET{ch}:{v}` (spec §6). -/
inductive Cmd
  | track (n : Nat)
  | out (n : Nat)
  | beepCmd (n : Nat)
  | vset (ch : Nat) (v : ℚ)
  | iset (ch : Nat) (v : ℚ)
deriving DecidableEq, Repr

/-- Result of one `Supply.set` call: `err` is the message of the Python
exception raised (or `none`), `state` is the cache afterwards, and `trace`
is the list of Transport exchanges issued, in order.  All raises in
`Supply.set` happen during validation, before any exchange, so an error
result carries the pre-call state and an empty trace, exactly as in the
source. -/
structure SetResult where
  err : Option String
  state : SupplyState
  trace : List Cmd
deriving DecidableEq, Repr

/-- First `Tracking` positional argument, mirroring
`[arg for arg in args if isinstance(arg, Tracking)][0]`. -/
def firstTracking : List Arg → Option Tracking
  | [] => none
  | .tracking t :: _ => some t
  | _ :: rest => firstTracking rest

/-- First `Output` positional argument. -/
def firstOutput : List Arg → Option Output
  | [] => none
  | .output o :: _ => some o
  | _ :: rest => firstOutput rest

/-- First `Beep` positional argument. -/
def firstBeep : List Arg → Option Beep
  | [] => none
  | .beep b :: _ => some b
  | _ :: rest => firstBeep rest

/-- The `Voltage` magnitudes among the arguments, in order
(`[voltage for voltage in args if isinstance(voltage, Voltage)]`). -/
def voltageVals : List Arg → List ℚ
  | [] => []
  | .voltage v :: rest => v :: voltageVals rest
  | _ :: rest => voltageVals rest

/-- The `Current` magnitudes among the arguments, in order. -/
def currentVals : List Arg → List ℚ
  | [] => []
  | .current c :: rest => c :: currentVals rest
  | _ :: rest => currentVals rest

/-- Whether any `Channel` marker occurs among the arguments
(`any(channels)`; enum members are always truthy in Python). -/
def hasChannelArg (args : List Arg) : Bool :=
  args.any fun a => match a with | .channel _ => true | _ => false

/-- Python slice bound `other_index if other_index and other_index > i else
len(args)` used when splitting the argument list at the channel markers
(`int` truthiness: index 0 is falsy). -/
def endFor (args : List Arg) (i : Nat) (other : Option Nat) : Nat :=
  match other with
  | some j => if j ≠ 0 ∧ i < j then j else args.length
  | none => args.length

/-- Python slice `args[i + 1 : e]`. -/
def segOf (args : List Arg) (i : Nat) (e : Nat) : List Arg :=
  (args.drop (i + 1)).take (e - (i + 1))

/-- The four per-channel setpoint requests `voltage1`, `voltage2`,
`current1`, `current2` extracted by `Supply.set` from its argument list. -/
structure Parsed where
  v1 : Option ℚ
  v2 : Option ℚ
  c1 : Option ℚ
  c2 : Option ℚ
deriving DecidableEq, Repr

/-- Argument extraction of the effective `Supply.set`
(`instek/__init__.py` lines 405-447): with `Channel` markers present, each
marker's setpoints are the first `Voltage`/`Current` in the slice between
that marker and the other one (or the end of the list); without markers, the
setpoints are assigned positionally (first/second `Voltage`, first/second
`Current`). -/
def parseArgs (args : List Arg) : Parsed :=
  if hasChannelArg args then
    let i1? := args.findIdx? (fun a => a = Arg.channel 1)
    let i2? := args.findIdx? (fun a => a = Arg.channel 2)
    let p1 : Option ℚ × Option ℚ :=
      match i1? with
      | some i =>
        let seg := segOf args i (endFor args i i2?)
        ((voltageVals seg).head?, (currentVals seg).head?)
      | none => (none, none)
    let p2 : Option ℚ × Option ℚ :=
      match i2? with
      | some i =>
        let seg := segOf args i (endFor args i i1?)
        ((voltageVals seg).head?, (currentVals seg).head?)
      | none => (none, none)
    ⟨p1.1, p2.1, p1.2, p2.2⟩
  else
    let vs := voltageVals args
    let cs := currentVals args
    ⟨vs.head?, vs[1]?, cs.head?, cs[1]?⟩

/-- Python truthiness of an optional quantity: `None` is falsy and a
`Voltage`/`Current` is falsy exactly when its magnitude is 0
(`UnitBase.__bool__`). -/
def truthyQ : Option ℚ → Bool
  | some v => v ≠ 0
  | none => false

/-- The compound condition `value and value > Quantity(lim)`: truthy value
and magnitude strictly above the ceiling. -/
def overQ (o : Option ℚ) (lim : ℚ) : Bool :=
  match o with
  | some v => decide (v ≠ 0) && decide (lim < v)
  | none => false

/-- Validation phase of the effective `Supply.set`
(`instek/__init__.py` lines 449-480): per-mode ceilings and channel-2
addressability, checked before any Transport exchange; the result is the
message of the exception raised, if any. -/
def validate (t : Tracking) (p : Parsed) : Option String :=
  match t with
  | .Independent =>
    if overQ p.v1 30 || overQ p.v2 30 then
      some "Voltage limit is 30V in independent mode"
    else if overQ p.c1 3 || overQ p.c2 3 then
      some "Current limit is 3A in independent mode"
    else none
  | .Series =>
    if overQ p.v1 60 then some "Voltage limit is 60V in series mode"
    else if truthyQ p.v2 then some "Cannot set voltage for channel 2 in series mode"
    else if truthyQ p.c2 then some "Current for channel 2 is always 3A in series mode"
    else none
  | .Parallel =>
    if overQ p.v1 30 then some "Voltage limit is 30V in parallel mode"
    else if truthyQ p.v2 then some "Cannot set voltage for channel 2 in parallel mode"
    else if overQ p.c1 6 then some "Current limit is 6A in parallel mode"
    else if truthyQ p.c2 then some "Cannot set current for channel 2 in parallel mode"
    else none

/-- Tracking-change block (`instek/__init__.py` lines 485-488): a differing
requested mode issues `TRACK{value}` and forces the cached output to `Off`
without an `OUT` command. -/
def trackPhase (s : SupplyState) (t : Tracking) : SupplyState × List Cmd :=
  if t ≠ s.tracking then ({ s with tracking := t, output := .Off }, [Cmd.track t.val])
  else (s, [])

/-- Output-off block (lines 490-492): an explicit `Output.Off` argument that
differs from the cached output issues `OUT0` before the channel writes. -/
def outOffPhase (s : SupplyState) (o? : Option Output) : SupplyState × List Cmd :=
  match o? with
  | some o =>
    if o ≠ s.output ∧ o = .Off then ({ s with output := o }, [Cmd.out o.val])
    else (s, [])
  | none => (s, [])

/-- Output-on block (lines 527-529): an explicit `Output.On` argument that
differs from the cached output issues `OUT1` after the channel writes. -/
def outOnPhase (s : SupplyState) (o? : Option Output) : SupplyState × List Cmd :=
  match o? with
  | some o =>
    if o ≠ s.output ∧ o = .On then ({ s with output := o }, [Cmd.out o.val])
    else (s, [])
  | none => (s, [])

/-- Beep block (lines 531-534): a `Beep` argument differing from the cached
beep issues `BEEP{value}`. -/
def beepPhase (s : SupplyState) (b? : Option Beep) : SupplyState × List Cmd :=
  match b? with
  | some b =>
    if b ≠ s.beepState then ({ s with beepState := b }, [Cmd.beepCmd b.val])
    else (s, [])
  | none => (s, [])

/-- Independent-mode channel-1 voltage write (lines 496-498): a truthy
request differing from the cache issues `VSET1:{v}` and updates the cache. -/
def wv1 (v? : Option ℚ) (s : SupplyState) : SupplyState × List Cmd :=
  match v? with
  | some v =>
    if v ≠ 0 ∧ s.ch1V ≠ v then ({ s with ch1V := v }, [Cmd.vset 1 v]) else (s, [])
  | none => (s, [])

/-- Independent-mode channel-2 voltage write (lines 499-501). -/
def wv2 (v? : Option ℚ) (s : SupplyState) : SupplyState × List Cmd :=
  match v? with
  | some v =>
    if v ≠ 0 ∧ s.ch2V ≠ v then ({ s with ch2V := v }, [Cmd.vset 2 v]) else (s, [])
  | none => (s, [])

/-- Independent-mode channel-1 current write (lines 502-504). -/
def wc1 (c? : Option ℚ) (s : SupplyState) : SupplyState × List Cmd :=
  match c? with
  | some c =>
    if c ≠ 0 ∧ s.ch1C ≠ c then ({ s with ch1C := c }, [Cmd.iset 1 c]) else (s, [])
  | none => (s, [])

/-- Independent-mode channel-2 current write (lines 505-507). -/
def wc2 (c? : Option ℚ) (s : SupplyState) : SupplyState × List Cmd :=
  match c? with
  | some c =>
    if c ≠ 0 ∧ s.ch2C ≠ c then ({ s with ch2C := c }, [Cmd.iset 2 c]) else (s, [])
  | none => (s, [])

/-- Series-mode voltage write (lines 509-512): the requested value is halved,
compared halved against the channel-1 cache, written to channel 1 and
mirrored into both cached channels. -/
def sv1 (v? : Option ℚ) (s : SupplyState) : SupplyState × List Cmd :=
  match v? with
  | some v =>
    if v ≠ 0 ∧ s.ch1V ≠ v / 2 then
      ({ s with ch1V := v / 2, ch2V := v / 2 }, [Cmd.vset 1 (v / 2)])
    else (s, [])
  | none => (s, [])

/-- Series-mode channel-1 current write (lines 513-515): untransformed. -/
def sc1 (c? : Option ℚ) (s : SupplyState) : SupplyState × List Cmd :=
  match c? with
  | some c =>
    if c ≠ 0 ∧ s.ch1C ≠ c then ({ s with ch1C := c }, [Cmd.iset 1 c]) else (s, [])
  | none => (s, [])

/-- Series-mode channel-2 current pin (lines 516-518): whenever the cached
channel-2 current differs from 3, `ISET2:3` is issued unconditionally on
every series-mode set. -/
def pinC2 (s : SupplyState) : SupplyState × List Cmd :=
  if s.ch2C ≠ 3 then ({ s with ch2C := 3 }, [Cmd.iset 2 3]) else (s, [])

/-- Parallel-mode channel-1 current write (lines 523-525): the requested
value is halved, compared halved against the channel-1 cache, and written
halved. -/
def pc1 (c? : Option ℚ) (s : SupplyState) : SupplyState × List Cmd :=
  match c? with
  | some c =>
    if c ≠ 0 ∧ s.ch1C ≠ c / 2 then
      ({ s with ch1C := c / 2 }, [Cmd.iset 1 (c / 2)])
    else (s, [])
  | none => (s, [])

/-- Channel-write phase of the effective `Supply.set` (lines 494-525),
dispatching on the (requested or cached) tracking mode. -/
def writePhase (t : Tracking) (p : Parsed) (s0 : SupplyState) :
    SupplyState × List Cmd :=
  match t with
  | .Independent =>
    let a := wv1 p.v1 s0
    let b := wv2 p.v2 a.1
    let c := wc1 p.c1 b.1
    let d := wc2 p.c2 c.1
    (d.1, a.2 ++ b.2 ++ c.2 ++ d.2)
  | .Series =>
    let a := sv1 p.v1 s0
    let b := sc1 p.c1 a.1
    let c := pinC2 b.1
    (c.1, a.2 ++ b.2 ++ c.2)
  | .Parallel =>
    let a := wv1 p.v1 s0
    let b := pc1 p.c1 a.1
    (b.1, a.2 ++ b.2)

/-- Mutation part of the effective `Supply.set` (`instek/__init__.py` lines
485-534), run once validation has passed: the tracking change, the explicit
output-off, the channel writes, the explicit output-on and the beep change,
in the source's order, with the exchanges concatenated in issue order. -/
def runPhases (s : SupplyState) (t : Tracking) (p : Parsed)
    (o? : Option Output) (b? : Option Beep) : SupplyState × List Cmd :=
  let r1 := trackPhase s t
  let r2 := outOffPhase r1.1 o?
  let r3 := writePhase t p r2.1
  let r4 := outOnPhase r3.1 o?
  let r5 := beepPhase r4.1 b?
  (r5.1, r1.2 ++ r2.2 ++ r3.2 ++ r4.2 ++ r5.2)

/-- The effective `Supply.set` (`instek/__init__.py` lines 393-534, the
second definition, which shadows the first): extract the requested mode
(defaulting to the cached one), parse the per-channel setpoints, validate
against the mode's limits before any exchange, then issue, in order, the
tracking change, an explicit output-off, the channel writes, an explicit
output-on, and a beep change, suppressing each write whose value already
matches the cache. -/
def Supply.set (s : SupplyState) (args : List Arg) : SetResult :=
  let t := (firstTracking args).getD s.tracking
  let p := parseArgs args
  match validate t p with
  | some m => ⟨some m, s, []⟩
  | none =>
    let r := runPhases s t p (firstOutput args) (firstBeep args)
    ⟨none, r.1, r.2⟩

/-- Whether a command is a `TRACK` mode change. -/
def Cmd.isTrack : Cmd → Bool
  | .track _ => true
  | _ => false

/-- Whether a command is the `OUT0` output-off exchange. -/
def Cmd.isOutOff : Cmd → Bool
  | .out n => n = 0
  | _ => false

/-- Whether a command is the `OUT1` output-on exchange. -/
def Cmd.isOutOn : Cmd → Bool
  | .out n => n = 1
  | _ => false

/-- Whether a command is a channel setpoint write (`VSET` or `ISET`). -/
def Cmd.isWrite : Cmd → Bool
  | .vset _ _ => true
  | .iset _ _ => true
  | _ => false

/-- Whether a command is a `BEEP` exchange. -/
def Cmd.isBeepChange : Cmd → Bool
  | .beepCmd _ => true
  | _ => false

/-- Whether a command is a voltage setpoint write (`VSET`). -/
def Cmd.isVoltageWrite : Cmd → Bool
  | .vset _ _ => true
  | _ => false

/-- A typed electrical quantity of `instek/types/__init__.py`: one of the
four `UnitBase` subclasses `Volts`, `Amps`, `Ohms`, `Watts`, carrying its
`Decimal` magnitude (modelled as `ℚ`). -/
inductive Qty
  | volts (v : ℚ)
  | amps (v : ℚ)
  | ohms (v : ℚ)
  | watts (v : ℚ)
deriving DecidableEq, Repr

/-- Cross- and same-type multiplication of the unit classes
(`instek/types/__init__.py`: `Volts.__mul__` lines 91-96, `Amps.__mul__`
lines 109-116, `Ohms.__mul__` lines 125-132, `Watts.__mul__` lines 141-146;
the same-type case is the `UnitBase.__mul__` fallback).  `sq` abstracts the
floating-point `math.sqrt` used by the `Ohms`/`Watts` branches; error
strings are the `__throw_error` messages.  Scalar operands are out of scope
(the claims concern operations between two `Quantity` types). -/
def qmul (sq : ℚ → ℚ) : Qty → Qty → Except String Qty
  | .volts a, .amps b => .ok (.watts (a * b))
  | .volts _, .ohms _ => .error "Cannot multiply Volts by Ohms"
  | .volts _, .watts _ => .error "Cannot multiply Volts by Watts"
  | .volts a, .volts b => .ok (.volts (a * b))
  | .amps a, .ohms b => .ok (.volts (a * b))
  | .amps a, .volts b => .ok (.watts (a * b))
  | .amps _, .watts _ => .error "Cannot multiply Amps by Watts"
  | .amps a, .amps b => .ok (.amps (a * b))
  | .ohms a, .amps b => .ok (.volts (a * b))
  | .ohms a, .watts b => .ok (.volts (sq (a / b)))
  | .ohms _, .volts _ => .error "Cannot multiply Ohms by Volts"
  | .ohms a, .ohms b => .ok (.ohms (a * b))
  | .watts a, .ohms b => .ok (.volts (sq (a * b)))
  | .watts _, .volts _ => .error "Cannot multiply Watts by Volts"
  | .watts _, .amps _ => .error "Cannot multiply Watts by Amps"
  | .watts a, .watts b => .ok (.watts (a * b))

/-- Cross- and same-type true division of the unit classes
(`Volts.__truediv__` lines 98-105, `Amps.__truediv__` lines 118-121,
`Ohms.__truediv__` lines 134-137, `Watts.__truediv__` lines 148-155; the
same-type case is the `UnitBase.__truediv__` fallback).  `ℚ` division is
total; the theorems put nonzero divisors in their hypotheses where the
source would raise a division error. -/
def qdiv (sq : ℚ → ℚ) : Qty → Qty → Except String Qty
  | .volts a, .amps b => .ok (.ohms (a / b))
  | .volts a, .ohms b => .ok (.amps (a / b))
  | .volts a, .watts b => .ok (.ohms (a ^ 2 / b))
  | .volts a, .volts b => .ok (.volts (a / b))
  | .amps _, .volts _ => .error "Cannot divide Amps by Volts"
  | .amps _, .ohms _ => .error "Cannot divide Amps by Ohms"
  | .amps _, .watts _ => .error "Cannot divide Amps by Watts"
  | .amps a, .amps b => .ok (.amps (a / b))
  | .ohms _, .watts _ => .error "Cannot divide Ohms by Watts"
  | .ohms _, .volts _ => .error "Cannot divide Ohms by Volts"
  | .ohms _, .amps _ => .error "Cannot divide Ohms by Amps"
  | .ohms a, .ohms b => .ok (.ohms (a / b))
  | .watts a, .volts b => .ok (.amps (a / b))
  | .watts a, .amps b => .ok (.volts (a / b))
  | .watts a, .ohms b => .ok (.amps (sq (a / b)))
  | .watts a, .watts b => .ok (.watts (a / b))

/-- Python substring prefix test: whether `needle` starts `hay`. -/
def leadsWith : List Char → List Char → Bool
  | [], _ => true
  | _ :: _, [] => false
  | a :: as, b :: bs => a = b && leadsWith as bs

/-- Python substring containment `needle in hay`. -/
def containsSub (needle : List Char) : List Char → Bool
  | [] => leadsWith needle []
  | c :: t => leadsWith needle (c :: t) || containsSub needle t

/-- Parsed identification response: the `__manufacturer`, `__model`,
`__serial` and `__version` attributes of `Supply`. -/
structure Identity where
  manufacturer : String
  model : String
  serial : String
  version : String
deriving DecidableEq, Repr

/-- Python `str.split(sep)` on a single separator character: adjacent
separators produce empty fields and the empty string yields one empty
field. -/
def splitOnChar (sep : Char) : List Char → List (List Char)
  | [] => [[]]
  | c :: t =>
    let r := splitOnChar sep t
    if c = sep then [] :: r
    else
      match r with
      | h :: t2 => (c :: h) :: t2
      | [] => [[c]]

/-- Identification parsing of `Supply.__init__` (`instek/__init__.py` lines
116-123): require the `instek` substring case-insensitively, split on
commas, take the text after the colon of the third field as the serial, and
drop the leading character (the `V`) of the fourth field for the version.
`none` models the exception path (missing fields or a foreign device). -/
def Supply.parseIdn (r : String) : Option Identity :=
  if containsSub "instek".toList (r.toList.map Char.toLower) then
    match splitOnChar ',' r.toList with
    | m :: md :: sn :: ver :: _ =>
      match splitOnChar ':' sn with
      | _ :: srl :: _ =>
        some ⟨String.mk m, String.mk md, String.mk srl, String.mk (ver.drop 1)⟩
      | _ => none
    | _ => none
  else none

/-- Value of an ASCII digit, `none` when `int(...)` would raise. -/
def digitVal (c : Char) : Option Nat :=
  if c.isDigit then some (c.toNat - 48) else none

/-- Tracking decode of status positions 2-3 (`GPDX303S.__status`,
`instek/gpd/__init__.py` lines 170-176): the `match response[2:4]` with
cases `"01"`, `"11"`, `"10"` and, notably, no default case — any other pair
yields `none`, leaving the cached tracking untouched. -/
def trackBits : Char → Char → Option Tracking
  | '0', '1' => some .Independent
  | '1', '1' => some .Series
  | '1', '0' => some .Parallel
  | _, _ => none

/-- Decoded `STATUS?` response fields. -/
structure Status where
  mode1 : Nat
  mode2 : Nat
  trackingBits : Option Tracking
  beepOn : Bool
  outputOn : Bool
deriving DecidableEq, Repr

/-- Status parsing (`GPDX303S.__status`, `instek/gpd/__init__.py` lines
164-180): positions 0-1 are the per-channel CC/CV digits, positions 2-3 the
tracking pair, position 4 the beep flag.  The `outputOn` field is modelled
from the spec: position 5 encodes output enabled (spec §4.5); the `State`
class that `Supply.__init__` reads it from is absent from the source and
`GPDX303S.__status` skips it.  `none` models the exceptions raised on a
short or non-numeric response. -/
def parseStatus (r : String) : Option Status :=
  match r.toList with
  | c0 :: c1 :: c2 :: c3 :: c4 :: c5 :: _ =>
    match digitVal c0, digitVal c1, digitVal c4, digitVal c5 with
    | some m1, some m2, some b, some o =>
      some ⟨m1, m2, trackBits c2 c3, b != 0, o != 0⟩
    | _, _, _, _ => none
  | _ => none

/-- Classified device error phrase, standing for the messages interpolated
by `Supply.__set_voltage` / `Supply.__set_current`: `channelMissing ch` is
the `Invalid Character` classification, `voltageRange v` / `currentRange c`
the `Data out of range` one, and `voltageNotAllowed` / `currentNotAllowed`
the `Command not allowed` one. -/
inductive DevMsg
  | channelMissing (ch : Nat)
  | voltageRange (v : ℚ)
  | currentRange (c : ℚ)
  | voltageNotAllowed (ch : Nat) (t : Tracking)
  | currentNotAllowed (ch : Nat) (t : Tracking)
deriving DecidableEq, Repr

/-- Response classification of `Supply.__set_voltage`
(`instek/__init__.py` lines 172-183): each recognised phrase in a non-`None`
response RAISES the matching classified error; otherwise the function
returns `response == None`. -/
def setVoltageResult (t : Tracking) (ch : Nat) (v : ℚ) (resp : Option String) :
    Except DevMsg Bool :=
  match resp with
  | some r =>
    if containsSub "Invalid Character".toList r.toList then
      .error (.channelMissing ch)
    else if containsSub "Data out of range".toList r.toList then
      .error (.voltageRange v)
    else if containsSub "Command not allowed".toList r.toList then
      .error (.voltageNotAllowed ch t)
    else .ok false
  | none => .ok true

/-- Response classification of `Supply.__set_current`
(`instek/__init__.py` lines 193-204): each recognised phrase is PRINTED
(collected here as the first component) and the function then returns
`response == None` normally — no exception is raised. -/
def setCurrentResult (t : Tracking) (ch : Nat) (c : ℚ) (resp : Option String) :
    List DevMsg × Bool :=
  match resp with
  | some r =>
    if containsSub "Invalid Character".toList r.toList then
      ([.channelMissing ch], false)
    else if containsSub "Data out of range".toList r.toList then
      ([.currentRange c], false)
    else if containsSub "Command not allowed".toList r.toList then
      ([.currentNotAllowed ch t], false)
    else ([], false)
  | none => ([], true)

/-- Cached state of a `GPDX303S` instance: the tri-state `__remote` flag
(`None` until first set), the cached beep flag and tracking mode
(`instek/gpd/__init__.py` lines 29-31). -/
structure GPDState where
  remote : Option Bool
  beepOn : Bool
  tracking : Tracking
deriving DecidableEq, Repr

/-- `GPDX303S.__prechecks("remote")` (`instek/gpd/__init__.py` lines
182-184): raises exactly when the cached remote flag `is False` — an
unknown (`None`) or `True` flag passes. -/
def prechecksRemote (s : GPDState) : Bool :=
  s.remote = some false

/-- `GPDX303S.output` setter (lines 87-90): remote precheck, then the
`OUT{int(value)}` exchange. -/
def outputSetter (s : GPDState) (v : Bool) : Except String (List Cmd) :=
  if prechecksRemote s then .error "Supply is in local mode"
  else .ok [Cmd.out (if v then 1 else 0)]

/-- `GPDX303S.tracking` setter (lines 96-108): remote precheck, early
return on an unchanged mode, otherwise the `TRACK0/1/2` exchange and a
cache update. -/
def trackingSetter (s : GPDState) (v : Tracking) :
    Except String (GPDState × List Cmd) :=
  if prechecksRemote s then .error "Supply is in local mode"
  else if v = s.tracking then .ok (s, [])
  else .ok ({ s with tracking := v }, [Cmd.track v.val])

/-- Error raised by `GPDX303S.__XSET`. -/
inductive XErr
  | localMode
  | outOfRange (v : ℚ)
  | notAllowed (ch : Nat) (t : Tracking)
deriving DecidableEq, Repr

/-- `GPDX303S.__XSET` (lines 213-225): a `None` value returns with no
exchange and no precheck; otherwise the remote precheck runs, the
`VSET`/`ISET` exchange is issued, and the response is matched against
`Data out of range` and `Command not allowed` (only those two phrases; an
`Invalid Character` response is silently ignored).  `isCur` selects
`ISET{ch}:{v}` over `VSET{ch}:{v}`; `resp` is the device response line. -/
def xset (s : GPDState) (isCur : Bool) (ch : Nat) (value : Option ℚ)
    (resp : String) : Except XErr (List Cmd) :=
  match value with
  | none => .ok []
  | some v =>
    if prechecksRemote s then .error .localMode
    else
      let cmd := if isCur then Cmd.iset ch v else Cmd.vset ch v
      if containsSub "Data out of range".toList resp.toList then
        .error (.outOfRange v)
      else if containsSub "Command not allowed".toList resp.toList then
        .error (.notAllowed ch s.tracking)
      else .ok [cmd]

theorem set_err (s : SupplyState) (args : List Arg) :
    (Supply.set s args).err =
      validate ((firstTracking args).getD s.tracking) (parseArgs args) := by
  unfold Supply.set
  cases hv : validate ((firstTracking args).getD s.tracking) (parseArgs args) <;>
    simp [hv]

theorem set_of_validate_none (s : SupplyState) (args : List Arg)
    (hv : validate ((firstTracking args).getD s.tracking) (parseArgs args) = none) :
    Supply.set s args =
      ⟨none,
        (runPhases s ((firstTracking args).getD s.tracking) (parseArgs args)
          (firstOutput args) (firstBeep args)).1,
        (runPhases s ((firstTracking args).getD s.tracking) (parseArgs args)
          (firstOutput args) (firstBeep args)).2⟩ := by
  unfold Supply.set
  simp [hv]

theorem set_of_validate_some (s : SupplyState) (args : List Arg) (m : String)
    (hv : validate ((firstTracking args).getD s.tracking) (parseArgs args) = some m) :
    Supply.set s args = ⟨some m, s, []⟩ := by
  unfold Supply.set
  simp [hv]

theorem wv1_output (v? : Option ℚ) (s : SupplyState) :
    (wv1 v? s).1.output = s.output := by
  cases v? <;> simp only [wv1]
  split <;> rfl

theorem wv2_output (v? : Option ℚ) (s : SupplyState) :
    (wv2 v? s).1.output = s.output := by
  cases v? <;> simp only [wv2]
  split <;> rfl

theorem wc1_output (c? : Option ℚ) (s : SupplyState) :
    (wc1 c? s).1.output = s.output := by
  cases c? <;> simp only [wc1]
  split <;> rfl

theorem wc2_output (c? : Option ℚ) (s : SupplyState) :
    (wc2 c? s).1.output = s.output := by
  cases c? <;> simp only [wc2]
  split <;> rfl

theorem sv1_output (v? : Option ℚ) (s : SupplyState) :
    (sv1 v? s).1.output = s.output := by
  cases v? <;> simp only [sv1]
  split <;> rfl

theorem sc1_output (c? : Option ℚ) (s : SupplyState) :
    (sc1 c? s).1.output = s.output := by
  cases c? <;> simp only [sc1]
  split <;> rfl

theorem pinC2_output (s : SupplyState) : (pinC2 s).1.output = s.output := by
  simp only [pinC2]
  split <;> rfl

theorem pc1_output (c? : Option ℚ) (s : SupplyState) :
    (pc1 c? s).1.output = s.output := by
  cases c? <;> simp only [pc1]
  split <;> rfl

theorem writePhase_output (t : Tracking) (p : Parsed) (s0 : SupplyState) :
    (writePhase t p s0).1.output = s0.output := by
  cases t
  · simp only [writePhase]
    rw [wc2_output, wc1_output, wv2_output, wv1_output]
  · simp only [writePhase]
    rw [pinC2_output, sc1_output, sv1_output]
  · simp only [writePhase]
    rw [pc1_output, wv1_output]

theorem beepPhase_output (b? : Option Beep) (s : SupplyState) :
    (beepPhase s b?).1.output = s.output := by
  cases b? <;> simp only [beepPhase]
  split <;> rfl

theorem trackPhase_mem (s : SupplyState) (t : Tracking) :
    ∀ c ∈ (trackPhase s t).2, c.isTrack := by
  simp only [trackPhase]
  split <;> simp [Cmd.isTrack]

theorem outOffPhase_mem (s : SupplyState) (o? : Option Output) :
    ∀ c ∈ (outOffPhase s o?).2, c.isOutOff := by
  cases o? with
  | none => simp [outOffPhase]
  | some o =>
    simp only [outOffPhase]
    split <;> rename_i h <;> simp_all [Cmd.isOutOff, Output.val]

theorem outOnPhase_mem (s : SupplyState) (o? : Option Output) :
    ∀ c ∈ (outOnPhase s o?).2, c.isOutOn := by
  cases o? with
  | none => simp [outOnPhase]
  | some o =>
    simp only [outOnPhase]
    split <;> rename_i h <;> simp_all [Cmd.isOutOn, Output.val]

theorem beepPhase_mem (s : SupplyState) (b? : Option Beep) :
    ∀ c ∈ (beepPhase s b?).2, c.isBeepChange := by
  cases b? with
  | none => simp [beepPhase]
  | some b =>
    simp only [beepPhase]
    split <;> simp [Cmd.isBeepChange]

theorem wv1_mem (v? : Option ℚ) (s : SupplyState) :
    ∀ c ∈ (wv1 v? s).2, c.isWrite := by
  cases v? <;> simp only [wv1]
  · simp
  · split <;> simp [Cmd.isWrite]

theorem wv2_mem (v? : Option ℚ) (s : SupplyState) :
    ∀ c ∈ (wv2 v? s).2, c.isWrite := by
  cases v? <;> simp only [wv2]
  · simp
  · split <;> simp [Cmd.isWrite]

theorem wc1_mem (c? : Option ℚ) (s : SupplyState) :
    ∀ c ∈ (wc1 c? s).2, c.isWrite := by
  cases c? <;> simp only [wc1]
  · simp
  · split <;> simp [Cmd.isWrite]

theorem wc2_mem (c? : Option ℚ) (s : SupplyState) :
    ∀ c ∈ (wc2 c? s).2, c.isWrite := by
  cases c? <;> simp only [wc2]
  · simp
  · split <;> simp [Cmd.isWrite]

theorem sv1_mem (v? : Option ℚ) (s : SupplyState) :
    ∀ c ∈ (sv1 v? s).2, c.isWrite := by
  cases v? <;> simp only [sv1]
  · simp
  · split <;> simp [Cmd.isWrite]

theorem sc1_mem (c? : Option ℚ) (s : SupplyState) :
    ∀ c ∈ (sc1 c? s).2, c.isWrite := by
  cases c? <;> simp only [sc1]
  · simp
  · split <;> simp [Cmd.isWrite]

theorem pinC2_mem (s : SupplyState) : ∀ c ∈ (pinC2 s).2, c.isWrite := by
  simp only [pinC2]
  split <;> simp [Cmd.isWrite]

theorem pc1_mem (c? : Option ℚ) (s : SupplyState) :
    ∀ c ∈ (pc1 c? s).2, c.isWrite := by
  cases c? <;> simp only [pc1]
  · simp
  · split <;> simp [Cmd.isWrite]

theorem writePhase_mem (t : Tracking) (p : Parsed) (s0 : SupplyState) :
    ∀ c ∈ (writePhase t p s0).2, c.isWrite := by
  cases t <;> simp only [writePhase] <;> intro c hc <;>
    rcases List.mem_append.mp hc with hc | hc
  · rcases List.mem_append.mp hc with hc | hc
    · rcases List.mem_append.mp hc with hc | hc
      · exact wv1_mem _ _ c hc
      · exact wv2_mem _ _ c hc
    · exact wc1_mem _ _ c hc
  · exact wc2_mem _ _ c hc
  · rcases List.mem_append.mp hc with hc | hc
    · exact sv1_mem _ _ c hc
    · exact sc1_mem _ _ c hc
  · exact pinC2_mem _ c hc
  · exact wv1_mem _ _ c hc
  · exact pc1_mem _ _ c hc

theorem parseArgs_voltage (v : ℚ) :
    parseArgs [Arg.voltage v] = ⟨some v, none, none, none⟩ := by
  simp [parseArgs, hasChannelArg, voltageVals, currentVals]

theorem parseArgs_current (c : ℚ) :
    parseArgs [Arg.current c] = ⟨none, none, some c, none⟩ := by
  simp [parseArgs, hasChannelArg, voltageVals, currentVals]

theorem parseArgs_ch2_voltage (v : ℚ) :
    parseArgs [Arg.channel 2, Arg.voltage v] = ⟨none, some v, none, none⟩ := rfl

theorem parseArgs_ch2_current (c : ℚ) :
    parseArgs [Arg.channel 2, Arg.current c] = ⟨none, none, none, some c⟩ := rfl

theorem overQ_le {v lim : ℚ} (h : v ≤ lim) : overQ (some v) lim = false := by
  show (decide (v ≠ 0) && decide (lim < v)) = false
  rw [decide_eq_false (not_lt.mpr h), Bool.and_false]

theorem overQ_none (lim : ℚ) : overQ none lim = false := rfl

theorem truthyQ_none : truthyQ none = false := rfl

theorem outOffPhase_of_off (s : SupplyState) (o? : Option Output)
    (h : s.output = Output.Off) : outOffPhase s o? = (s, []) := by
  cases o? with
  | none => rfl
  | some o =>
    simp only [outOffPhase]
    split <;> simp_all

theorem isOutOff_false_of_isTrack (c : Cmd) (h : c.isTrack = true) :
    c.isOutOff = false := by
  cases c <;> simp_all [Cmd.isTrack, Cmd.isOutOff]

theorem isOutOff_false_of_isWrite (c : Cmd) (h : c.isWrite = true) :
    c.isOutOff = false := by
  cases c <;> simp_all [Cmd.isWrite, Cmd.isOutOff]

theorem isOutOff_false_of_isOutOn (c : Cmd) (h : c.isOutOn = true) :
    c.isOutOff = false := by
  cases c <;> simp_all [Cmd.isOutOn, Cmd.isOutOff]

theorem isOutOff_false_of_isBeepChange (c : Cmd) (h : c.isBeepChange = true) :
    c.isOutOff = false := by
  cases c <;> simp_all [Cmd.isBeepChange, Cmd.isOutOff]

theorem validate_indep_v (v : ℚ) (h : v ≤ 30) :
    validate .Independent ⟨some v, none, none, none⟩ = none := by
  have hv : overQ (some v) 30 = false := overQ_le h
  simp [validate, hv, overQ_none, truthyQ_none]

theorem validate_indep_c (c : ℚ) (h : c ≤ 3) :
    validate .Independent ⟨none, none, some c, none⟩ = none := by
  have hc : overQ (some c) 3 = false := overQ_le h
  simp [validate, hc, overQ_none, truthyQ_none]

theorem validate_indep_v2 (v : ℚ) (h : v ≤ 30) :
    validate .Independent ⟨none, some v, none, none⟩ = none := by
  have hv : overQ (some v) 30 = false := overQ_le h
  simp [validate, hv, overQ_none, truthyQ_none]

theorem validate_indep_c2 (c : ℚ) (h : c ≤ 3) :
    validate .Independent ⟨none, none, none, some c⟩ = none := by
  have hc : overQ (some c) 3 = false := overQ_le h
  simp [validate, hc, overQ_none, truthyQ_none]

theorem validate_par_v (v : ℚ) (h : v ≤ 30) :
    validate .Parallel ⟨some v, none, none, none⟩ = none := by
  have hv : overQ (some v) 30 = false := overQ_le h
  simp [validate, hv, overQ_none, truthyQ_none]

theorem validate_par_c (c : ℚ) (h : c ≤ 6) :
    validate .Parallel ⟨none, none, some c, none⟩ = none := by
  have hc : overQ (some c) 6 = false := overQ_le h
  simp [validate, hc, overQ_none, truthyQ_none]

theorem validate_series_v (v : ℚ) (h : v ≤ 60) :
    validate .Series ⟨some v, none, none, none⟩ = none := by
  have hv : overQ (some v) 60 = false := overQ_le h
  simp [validate, hv, overQ_none, truthyQ_none]

theorem validate_series_c (c : ℚ) :
    validate .Series ⟨none, none, some c, none⟩ = none := by
  simp [validate, overQ_none, truthyQ_none]

/-- Claim C1: for every state with Output=On, setting the TrackingMode to any
different mode forces Output to Off as a side effect, without an explicit
output command from the caller, and the mode-change command is issued before
any subsequent channel writes (here: it is the first exchange of the call). -/
theorem claim_C1_mode_change_forces_output_off (s : SupplyState) (args : List Arg)
    (t : Tracking) (_hOn : s.output = Output.On)
    (ht : firstTracking args = some t) (hne : t ≠ s.tracking)
    (hno : firstOutput args = none)
    (hok : (Supply.set s args).err = none) :
    (Supply.set s args).state.output = Output.Off ∧
    (Supply.set s args).trace.head? = some (Cmd.track t.val) := by
  have hv : validate ((firstTracking args).getD s.tracking) (parseArgs args) = none := by
    rw [← set_err]
    exact hok
  rw [set_of_validate_none s args hv, ht]
  have h1 : trackPhase s t = ({ s with tracking := t, output := .Off }, [Cmd.track t.val]) := by
    simp [trackPhase, hne]
  constructor
  · show (runPhases s ((some t).getD s.tracking) (parseArgs args) (firstOutput args)
      (firstBeep args)).1.output = _
    rw [hno, Option.getD_some]
    simp only [runPhases, h1, outOffPhase]
    rw [beepPhase_output]
    simp only [outOnPhase]
    rw [writePhase_output]
  · show (runPhases s ((some t).getD s.tracking) (parseArgs args) (firstOutput args)
      (firstBeep args)).2.head? = _
    rw [hno, Option.getD_some]
    simp only [runPhases, h1, outOffPhase, outOnPhase, List.cons_append, List.nil_append,
      List.head?]

theorem claim_C1_mode_change_forces_output_off_witness :
    (Supply.set ⟨.Independent, .On, .Off, 0, 0, 0, 3⟩ [Arg.tracking .Series]).state.output =
      Output.Off ∧
    (Supply.set ⟨.Independent, .On, .Off, 0, 0, 0, 3⟩ [Arg.tracking .Series]).trace.head? =
      some (Cmd.track Tracking.Series.val) :=
  claim_C1_mode_change_forces_output_off ⟨.Independent, .On, .Off, 0, 0, 0, 3⟩
    [Arg.tracking .Series] .Series rfl rfl (by decide) rfl (by decide)

/-- Claim C2: in Series mode, a set of Voltage(61) fails with the series
limit error and issues zero Transport exchanges, while a set of Voltage(60)
(when the cached channel-1 voltage differs from the halved request) succeeds
and results in exactly one channel-1 voltage write, of 30, with the cache
recording 30 for both channels 1 and 2. -/
theorem claim_C2_series_voltage_limit (s : SupplyState)
    (htr : s.tracking = Tracking.Series) (hne : s.ch1V ≠ 30) :
    (Supply.set s [Arg.voltage 61]).err = some "Voltage limit is 60V in series mode" ∧
    (Supply.set s [Arg.voltage 61]).trace = [] ∧
    (Supply.set s [Arg.voltage 61]).state = s ∧
    (Supply.set s [Arg.voltage 60]).err = none ∧
    (Supply.set s [Arg.voltage 60]).trace.filter Cmd.isVoltageWrite = [Cmd.vset 1 30] ∧
    (Supply.set s [Arg.voltage 60]).state.ch1V = 30 ∧
    (Supply.set s [Arg.voltage 60]).state.ch2V = 30 := by
  have h30 : (60 : ℚ) / 2 = 30 := by norm_num
  have hv61 : validate ((firstTracking [Arg.voltage (61:ℚ)]).getD s.tracking)
      (parseArgs [Arg.voltage 61]) = some "Voltage limit is 60V in series mode" := by
    rw [parseArgs_voltage]
    show validate s.tracking _ = _
    rw [htr]
    norm_num [validate, overQ]
  have h61 := set_of_validate_some s [Arg.voltage 61] _ hv61
  have hv60 : validate ((firstTracking [Arg.voltage (60:ℚ)]).getD s.tracking)
      (parseArgs [Arg.voltage 60]) = none := by
    rw [parseArgs_voltage]
    show validate s.tracking _ = _
    rw [htr]
    norm_num [validate, overQ, truthyQ]
  have h60 := set_of_validate_none s [Arg.voltage 60] hv60
  refine ⟨by rw [h61], by rw [h61], by rw [h61], by rw [h60], ?_, ?_, ?_⟩ <;>
    rw [h60] <;>
    by_cases hc : s.ch2C = 3 <;>
    simp [runPhases, trackPhase, htr, outOffPhase, writePhase, sv1, sc1, pinC2,
      outOnPhase, beepPhase, parseArgs_voltage, firstTracking, firstOutput, firstBeep,
      h30, hne, hc, Cmd.isVoltageWrite]

theorem claim_C2_series_voltage_limit_witness :
    (Supply.set ⟨.Series, .Off, .Off, 0, 0, 0, 3⟩ [Arg.voltage 61]).err =
      some "Voltage limit is 60V in series mode" ∧
    (Supply.set ⟨.Series, .Off, .Off, 0, 0, 0, 3⟩ [Arg.voltage 61]).trace = [] ∧
    (Supply.set ⟨.Series, .Off, .Off, 0, 0, 0, 3⟩ [Arg.voltage 61]).state =
      ⟨.Series, .Off, .Off, 0, 0, 0, 3⟩ ∧
    (Supply.set ⟨.Series, .Off, .Off, 0, 0, 0, 3⟩ [Arg.voltage 60]).err = none ∧
    (Supply.set ⟨.Series, .Off, .Off, 0, 0, 0, 3⟩ [Arg.voltage 60]).trace.filter
      Cmd.isVoltageWrite = [Cmd.vset 1 30] ∧
    (Supply.set ⟨.Series, .Off, .Off, 0, 0, 0, 3⟩ [Arg.voltage 60]).state.ch1V = 30 ∧
    (Supply.set ⟨.Series, .Off, .Off, 0, 0, 0, 3⟩ [Arg.voltage 60]).state.ch2V = 30 :=
  claim_C2_series_voltage_limit ⟨.Series, .Off, .Off, 0, 0, 0, 3⟩ rfl (by norm_num)

/-- Claim C3: evaluation of the code at the claim's inputs.  In Parallel
mode a channel-2 voltage request of 0 is silently ignored (no error, no
exchange, cache unchanged) because the rejection test is Python truthiness
(`if voltage2:`) and `Voltage(0)` is falsy — the failing input for the
claim.  Nonzero channel-2 voltage/current requests do fail with the
addressability errors before any exchange, an over-limit channel-1 current
fails with the 6 A limit error, and an accepted channel-1 current is
written to the device halved. -/
theorem claim_C3_parallel_channel2 :
    Supply.set ⟨.Parallel, .Off, .Off, 5, 5, 1, 1⟩ [Arg.channel 2, Arg.voltage 0] =
      ⟨none, ⟨.Parallel, .Off, .Off, 5, 5, 1, 1⟩, []⟩ ∧
    (Supply.set ⟨.Parallel, .Off, .Off, 5, 5, 1, 1⟩ [Arg.channel 2, Arg.voltage 7]).err =
      some "Cannot set voltage for channel 2 in parallel mode" ∧
    (Supply.set ⟨.Parallel, .Off, .Off, 5, 5, 1, 1⟩ [Arg.channel 2, Arg.voltage 7]).trace = [] ∧
    (Supply.set ⟨.Parallel, .Off, .Off, 5, 5, 1, 1⟩ [Arg.channel 2, Arg.current 7]).err =
      some "Cannot set current for channel 2 in parallel mode" ∧
    (Supply.set ⟨.Parallel, .Off, .Off, 5, 5, 1, 1⟩ [Arg.channel 2, Arg.current 7]).trace = [] ∧
    (Supply.set ⟨.Parallel, .Off, .Off, 5, 5, 1, 1⟩ [Arg.current 7]).err =
      some "Current limit is 6A in parallel mode" ∧
    Supply.set ⟨.Parallel, .Off, .Off, 5, 5, 1, 1⟩ [Arg.current 4] =
      ⟨none, ⟨.Parallel, .Off, .Off, 5, 5, 2, 1⟩, [Cmd.iset 1 2]⟩ := by
  have h2 : (4 : ℚ) / 2 = 2 := by norm_num
  refine ⟨by decide, by decide, by decide, by decide, by decide, by decide, ?_⟩
  have hv : validate ((firstTracking [Arg.current (4:ℚ)]).getD
      (⟨.Parallel, .Off, .Off, 5, 5, 1, 1⟩ : SupplyState).tracking)
      (parseArgs [Arg.current 4]) = none := by decide
  rw [set_of_validate_none _ _ hv]
  norm_num [runPhases, trackPhase, outOffPhase, writePhase, wv1, pc1,
    outOnPhase, beepPhase, parseArgs_current, firstTracking, firstOutput, firstBeep, h2]

/-- Claim C4 counterexample: in Series mode with the cached channel-1
voltage already equal to the halved request (30), a set of Voltage(60) is
suppressed, yet the call still issues the channel-2 current pin exchange
`ISET2:3` and changes the cached channel-2 current — not zero Transport
exchanges with an unchanged cache, as the claim states. -/
theorem claim_C4_counterexample :
    Supply.set ⟨.Series, .Off, .Off, 30, 30, 1, 1⟩ [Arg.voltage 60] =
      ⟨none, ⟨.Series, .Off, .Off, 30, 30, 1, 3⟩, [Cmd.iset 2 3]⟩ := by
  have h30 : (60 : ℚ) / 2 = 30 := by norm_num
  have hv : validate ((firstTracking [Arg.voltage (60:ℚ)]).getD
      (⟨.Series, .Off, .Off, 30, 30, 1, 1⟩ : SupplyState).tracking)
      (parseArgs [Arg.voltage 60]) = none := by decide
  rw [set_of_validate_none _ _ hv]
  norm_num [runPhases, trackPhase, outOffPhase, writePhase, sv1, sc1, pinC2,
    outOnPhase, beepPhase, parseArgs_voltage, firstTracking, firstOutput, firstBeep, h30]

/-- Claim C4 (amended): setting a channel's voltage or current to a value
whose mode-transformed image equals the cached confirmed value for that
channel issues zero Transport exchanges and leaves the cache unchanged in
Independent and Parallel modes; in Series mode the same holds except for
the channel-2 current pin: when the cached channel-2 current differs from
3 the call additionally issues `ISET2:3` and sets that cache entry to 3. -/
theorem claim_C4_amended (s : SupplyState) (v c : ℚ) :
    (s.tracking = .Independent → v ≤ 30 → s.ch1V = v →
      Supply.set s [Arg.voltage v] = ⟨none, s, []⟩) ∧
    (s.tracking = .Independent → c ≤ 3 → s.ch1C = c →
      Supply.set s [Arg.current c] = ⟨none, s, []⟩) ∧
    (s.tracking = .Independent → v ≤ 30 → s.ch2V = v →
      Supply.set s [Arg.channel 2, Arg.voltage v] = ⟨none, s, []⟩) ∧
    (s.tracking = .Independent → c ≤ 3 → s.ch2C = c →
      Supply.set s [Arg.channel 2, Arg.current c] = ⟨none, s, []⟩) ∧
    (s.tracking = .Parallel → v ≤ 30 → s.ch1V = v →
      Supply.set s [Arg.voltage v] = ⟨none, s, []⟩) ∧
    (s.tracking = .Parallel → c ≤ 6 → s.ch1C = c / 2 →
      Supply.set s [Arg.current c] = ⟨none, s, []⟩) ∧
    (s.tracking = .Series → v ≤ 60 → s.ch1V = v / 2 →
      Supply.set s [Arg.voltage v] =
        ⟨none, { s with ch2C := 3 }, if s.ch2C = 3 then [] else [Cmd.iset 2 3]⟩) ∧
    (s.tracking = .Series → s.ch1C = c →
      Supply.set s [Arg.current c] =
        ⟨none, { s with ch2C := 3 }, if s.ch2C = 3 then [] else [Cmd.iset 2 3]⟩) := by
  obtain ⟨st, so, sb, s1v, s2v, s1c, s2c⟩ := s
  refine ⟨?_, ?_, ?_, ?_, ?_, ?_, ?_, ?_⟩
  · intro htr hle hc
    dsimp at htr hc
    subst htr
    have hval : validate ((firstTracking [Arg.voltage v]).getD Tracking.Independent)
        (parseArgs [Arg.voltage v]) = none := by
      rw [parseArgs_voltage]
      exact validate_indep_v v hle
    rw [set_of_validate_none _ _ hval]
    simp [runPhases, trackPhase, outOffPhase, writePhase, wv1, wv2, wc1, wc2,
      outOnPhase, beepPhase, parseArgs_voltage, firstTracking, firstOutput, firstBeep, hc]
  · intro htr hle hc
    dsimp at htr hc
    subst htr
    have hval : validate ((firstTracking [Arg.current c]).getD Tracking.Independent)
        (parseArgs [Arg.current c]) = none := by
      rw [parseArgs_current]
      exact validate_indep_c c hle
    rw [set_of_validate_none _ _ hval]
    simp [runPhases, trackPhase, outOffPhase, writePhase, wv1, wv2, wc1, wc2,
      outOnPhase, beepPhase, parseArgs_current, firstTracking, firstOutput, firstBeep, hc]
  · intro htr hle hc
    dsimp at htr hc
    subst htr
    have hval : validate ((firstTracking [Arg.channel 2, Arg.voltage v]).getD
        Tracking.Independent) (parseArgs [Arg.channel 2, Arg.voltage v]) = none := by
      rw [parseArgs_ch2_voltage]
      exact validate_indep_v2 v hle
    rw [set_of_validate_none _ _ hval]
    simp [runPhases, trackPhase, outOffPhase, writePhase, wv1, wv2, wc1, wc2,
      outOnPhase, beepPhase, parseArgs_ch2_voltage, firstTracking, firstOutput, firstBeep, hc]
  · intro htr hle hc
    dsimp at htr hc
    subst htr
    have hval : validate ((firstTracking [Arg.channel 2, Arg.current c]).getD
        Tracking.Independent) (parseArgs [Arg.channel 2, Arg.current c]) = none := by
      rw [parseArgs_ch2_current]
      exact validate_indep_c2 c hle
    rw [set_of_validate_none _ _ hval]
    simp [runPhases, trackPhase, outOffPhase, writePhase, wv1, wv2, wc1, wc2,
      outOnPhase, beepPhase, parseArgs_ch2_current, firstTracking, firstOutput, firstBeep, hc]
  · intro htr hle hc
    dsimp at htr hc
    subst htr
    have hval : validate ((firstTracking [Arg.voltage v]).getD Tracking.Parallel)
        (parseArgs [Arg.voltage v]) = none := by
      rw [parseArgs_voltage]
      exact validate_par_v v hle
    rw [set_of_validate_none _ _ hval]
    simp [runPhases, trackPhase, outOffPhase, writePhase, wv1, pc1,
      outOnPhase, beepPhase, parseArgs_voltage, firstTracking, firstOutput, firstBeep, hc]
  · intro htr hle hc
    dsimp at htr hc
    subst htr
    have hval : validate ((firstTracking [Arg.current c]).getD Tracking.Parallel)
        (parseArgs [Arg.current c]) = none := by
      rw [parseArgs_current]
      exact validate_par_c c hle
    rw [set_of_validate_none _ _ hval]
    simp [runPhases, trackPhase, outOffPhase, writePhase, wv1, pc1,
      outOnPhase, beepPhase, parseArgs_current, firstTracking, firstOutput, firstBeep, hc]
  · intro htr hle hc
    dsimp at htr hc
    subst htr
    have hval : validate ((firstTracking [Arg.voltage v]).getD Tracking.Series)
        (parseArgs [Arg.voltage v]) = none := by
      rw [parseArgs_voltage]
      exact validate_series_v v hle
    rw [set_of_validate_none _ _ hval]
    by_cases hc3 : s2c = (3 : ℚ) <;>
      simp [runPhases, trackPhase, outOffPhase, writePhase, sv1, sc1, pinC2,
        outOnPhase, beepPhase, parseArgs_voltage, firstTracking, firstOutput,
        firstBeep, hc, hc3]
  · intro htr hc
    dsimp at htr hc
    subst htr
    have hval : validate ((firstTracking [Arg.current c]).getD Tracking.Series)
        (parseArgs [Arg.current c]) = none := by
      rw [parseArgs_current]
      exact validate_series_c c
    rw [set_of_validate_none _ _ hval]
    by_cases hc3 : s2c = (3 : ℚ) <;>
      simp [runPhases, trackPhase, outOffPhase, writePhase, sv1, sc1, pinC2,
        outOnPhase, beepPhase, parseArgs_current, firstTracking, firstOutput,
        firstBeep, hc, hc3]

theorem claim_C4_amended_witness :
    ((5 : ℚ) ≤ 30 ∧ (60 : ℚ) ≤ 60) ∧
    Supply.set ⟨.Independent, .Off, .Off, 5, 0, 2, 0⟩ [Arg.voltage 5] =
      ⟨none, ⟨.Independent, .Off, .Off, 5, 0, 2, 0⟩, []⟩ ∧
    Supply.set ⟨.Series, .Off, .Off, 30, 30, 1, 2⟩ [Arg.voltage 60] =
      ⟨none, ⟨.Series, .Off, .Off, 30, 30, 1, 3⟩, [Cmd.iset 2 3]⟩ := by
  refine ⟨⟨by norm_num, by norm_num⟩, ?_, ?_⟩
  · exact (claim_C4_amended ⟨.Independent, .Off, .Off, 5, 0, 2, 0⟩ 5 2).1 rfl
      (by norm_num) rfl
  · have h := (claim_C4_amended ⟨.Series, .Off, .Off, 30, 30, 1, 2⟩ 60 1).2.2.2.2.2.2.1
      rfl (by norm_num) (by norm_num)
    norm_num at h
    exact h

/-- Claim C5 counterexample: with Output=On and a combined request of a
tracking change plus Output.Off, the only exchange issued is the tracking
change `TRACK1` — no output-off exchange is issued at all, and the first
pending change applied is the mode change, not the output-off.  This
contradicts the claim that an On→Off change is applied immediately, before
any other pending changes. -/
theorem claim_C5_counterexample :
    Supply.set ⟨.Independent, .On, .Off, 0, 0, 0, 3⟩
        [Arg.tracking .Series, Arg.output .Off] =
      ⟨none, ⟨.Series, .Off, .Off, 0, 0, 0, 3⟩, [Cmd.track 1]⟩ := by
  decide

/-- Claim C5 (amended): in every successful combined set, the exchanges are
issued in phase order — tracking-change commands first, then any explicit
output-off command, then all channel setpoint writes, then any output-on
command, then any beep command.  Hence an Off→On change is applied only
after all channel setpoint writes (though a beep change may still follow
it), and an On→Off change is applied before the channel writes but after a
requested tracking-mode change; when a tracking change is requested, the
mode change itself forces output off and no explicit output-off exchange is
issued at all. -/
theorem claim_C5_amended (s : SupplyState) (args : List Arg)
    (hok : (Supply.set s args).err = none) :
    (∃ t1 t2 t3 t4 t5,
      (Supply.set s args).trace = t1 ++ t2 ++ t3 ++ t4 ++ t5 ∧
      (∀ c ∈ t1, c.isTrack = true) ∧
      (∀ c ∈ t2, c.isOutOff = true) ∧
      (∀ c ∈ t3, c.isWrite = true) ∧
      (∀ c ∈ t4, c.isOutOn = true) ∧
      (∀ c ∈ t5, c.isBeepChange = true)) ∧
    (∀ t, firstTracking args = some t → t ≠ s.tracking →
      ∀ c ∈ (Supply.set s args).trace, c.isOutOff = false) := by
  have hv : validate ((firstTracking args).getD s.tracking) (parseArgs args) = none := by
    rw [← set_err]
    exact hok
  rw [set_of_validate_none s args hv]
  constructor
  · exact ⟨_, _, _, _, _, rfl, trackPhase_mem _ _, outOffPhase_mem _ _,
      writePhase_mem _ _ _, outOnPhase_mem _ _, beepPhase_mem _ _⟩
  · intro t ht hne c hc
    rw [ht, Option.getD_some] at hc
    have h1 : trackPhase s t =
        ({ s with tracking := t, output := .Off }, [Cmd.track t.val]) := by
      simp [trackPhase, hne]
    have h2 : outOffPhase { s with tracking := t, output := Output.Off }
        (firstOutput args) = ({ s with tracking := t, output := Output.Off }, []) :=
      outOffPhase_of_off _ _ rfl
    simp only [runPhases, h1, h2] at hc
    simp only [List.nil_append, List.cons_append, List.mem_cons,
      List.mem_append] at hc
    rcases hc with rfl | (hc | hc) | hc
    · rfl
    · exact isOutOff_false_of_isWrite c (writePhase_mem _ _ _ c hc)
    · exact isOutOff_false_of_isOutOn c (outOnPhase_mem _ _ c hc)
    · exact isOutOff_false_of_isBeepChange c (beepPhase_mem _ _ c hc)

theorem claim_C5_amended_witness :
    (∃ t1 t2 t3 t4 t5,
      (Supply.set ⟨.Independent, .Off, .Off, 0, 0, 0, 0⟩ [Arg.output .On]).trace =
        t1 ++ t2 ++ t3 ++ t4 ++ t5 ∧
      (∀ c ∈ t1, c.isTrack = true) ∧
      (∀ c ∈ t2, c.isOutOff = true) ∧
      (∀ c ∈ t3, c.isWrite = true) ∧
      (∀ c ∈ t4, c.isOutOn = true) ∧
      (∀ c ∈ t5, c.isBeepChange = true)) ∧
    (∀ t, firstTracking [Arg.output Output.On] = some t →
      t ≠ (⟨.Independent, .Off, .Off, 0, 0, 0, 0⟩ : SupplyState).tracking →
      ∀ c ∈ (Supply.set ⟨.Independent, .Off, .Off, 0, 0, 0, 0⟩
        [Arg.output .On]).trace, c.isOutOff = false) :=
  claim_C5_amended ⟨.Independent, .Off, .Off, 0, 0, 0, 0⟩ [Arg.output .On] (by decide)

/-- Claim C6 counterexample: dividing Volts by Watts does not fail with a
type error, as the claim requires of every cross-type combination outside
its list of six — `Volts.__truediv__` returns `Ohms(v ** 2 / w)`, here
`Volts(2) / Watts(4) = Ohms(1)`. -/
theorem claim_C6_counterexample :
    qdiv id (Qty.volts 2) (Qty.watts 4) = .ok (Qty.ohms 1) := by
  norm_num [qdiv]

/-- Claim C6 (amended): the six claimed identities V×A==W, W/V==A, W/A==V,
V/A==Ω, V/Ω==A and Ω×A==V all hold (for all magnitudes; the source raises
on a zero divisor, which `ℚ` division totalises); but the source defines
five further cross-type combinations instead of rejecting them — A×V==W
(the commuted product), V/W = Ω(V²/W), Ω×W and W×Ω as Volts values and W/Ω
as an Amps value (the latter three through `math.sqrt`, abstracted as
`sq`) — and every remaining cross-type multiply/divide combination fails
with a type error. -/
theorem claim_C6_amended (sq : ℚ → ℚ) (v a o w : ℚ) :
    qmul sq (.volts v) (.amps a) = .ok (.watts (v * a)) ∧
    qdiv sq (.watts w) (.volts v) = .ok (.amps (w / v)) ∧
    qdiv sq (.watts w) (.amps a) = .ok (.volts (w / a)) ∧
    qdiv sq (.volts v) (.amps a) = .ok (.ohms (v / a)) ∧
    qdiv sq (.volts v) (.ohms o) = .ok (.amps (v / o)) ∧
    qmul sq (.ohms o) (.amps a) = .ok (.volts (o * a)) ∧
    qmul sq (.amps a) (.volts v) = .ok (.watts (a * v)) ∧
    qdiv sq (.volts v) (.watts w) = .ok (.ohms (v ^ 2 / w)) ∧
    qmul sq (.ohms o) (.watts w) = .ok (.volts (sq (o / w))) ∧
    qmul sq (.watts w) (.ohms o) = .ok (.volts (sq (w * o))) ∧
    qdiv sq (.watts w) (.ohms o) = .ok (.amps (sq (w / o))) ∧
    qmul sq (.volts v) (.ohms o) = .error "Cannot multiply Volts by Ohms" ∧
    qmul sq (.volts v) (.watts w) = .error "Cannot multiply Volts by Watts" ∧
    qmul sq (.amps a) (.watts w) = .error "Cannot multiply Amps by Watts" ∧
    qmul sq (.ohms o) (.volts v) = .error "Cannot multiply Ohms by Volts" ∧
    qmul sq (.watts w) (.volts v) = .error "Cannot multiply Watts by Volts" ∧
    qmul sq (.watts w) (.amps a) = .error "Cannot multiply Watts by Amps" ∧
    qdiv sq (.amps a) (.volts v) = .error "Cannot divide Amps by Volts" ∧
    qdiv sq (.amps a) (.ohms o) = .error "Cannot divide Amps by Ohms" ∧
    qdiv sq (.amps a) (.watts w) = .error "Cannot divide Amps by Watts" ∧
    qdiv sq (.ohms o) (.volts v) = .error "Cannot divide Ohms by Volts" ∧
    qdiv sq (.ohms o) (.amps a) = .error "Cannot divide Ohms by Amps" ∧
    qdiv sq (.ohms o) (.watts w) = .error "Cannot divide Ohms by Watts" :=
  ⟨rfl, rfl, rfl, rfl, rfl, rfl, rfl, rfl, rfl, rfl, rfl, rfl, rfl, rfl, rfl,
   rfl, rfl, rfl, rfl, rfl, rfl, rfl, rfl⟩

/-- Claim C7 counterexample: in the status response "0101010" the beep flag
is position 4, whose character there is zero, so the decoded beep state is
Off — not On as the claim states. -/
theorem claim_C7_counterexample :
    (parseStatus "0101010").map Status.beepOn = some false := by
  decide

/-- Claim C7 (amended): identification response
"GW INSTEK,GPD-3303S,SN:12345678,V1.02" with status response "0101010"
yields manufacturer "GW INSTEK", model "GPD-3303S", serial "12345678",
version "1.02" (leading V stripped), TrackingMode=Independent and
Output=On, but Beep=Off (status position 4 is the beep digit and here it
is 0). -/
theorem claim_C7_amended :
    Supply.parseIdn "GW INSTEK,GPD-3303S,SN:12345678,V1.02" =
      some ⟨"GW INSTEK", "GPD-3303S", "12345678", "1.02"⟩ ∧
    parseStatus "0101010" = some ⟨0, 1, some .Independent, false, true⟩ :=
  ⟨by decide, by decide⟩

/-- Claim C8 counterexample: the status string "0000000" has the unmatched
tracking pair "00" at positions 2-3, yet status parsing succeeds — no
ParseError is raised: the source's `match` has no default case, so the
tracking field is silently left unset. -/
theorem claim_C8_counterexample :
    parseStatus "0000000" = some ⟨0, 0, none, false, false⟩ := by
  decide

/-- Claim C8 (amended): status positions 2-3 decode "01"=Independent,
"11"=Series, "10"=Parallel; any other two-character value does NOT fail
with a ParseError — parsing succeeds and the tracking mode is silently
left unset (the cached value is untouched). -/
theorem claim_C8_tracking_decode (c2 c3 : Char)
    (h1 : (c2, c3) ≠ ('0', '1')) (h2 : (c2, c3) ≠ ('1', '1'))
    (h3 : (c2, c3) ≠ ('1', '0')) :
    (parseStatus (String.mk ['0', '1', '0', '1', '1', '1', '0'])).map
      Status.trackingBits = some (some Tracking.Independent) ∧
    (parseStatus (String.mk ['0', '1', '1', '1', '1', '1', '0'])).map
      Status.trackingBits = some (some Tracking.Series) ∧
    (parseStatus (String.mk ['0', '1', '1', '0', '1', '1', '0'])).map
      Status.trackingBits = some (some Tracking.Parallel) ∧
    parseStatus (String.mk ['0', '0', c2, c3, '0', '0', '0']) =
      some ⟨0, 0, none, false, false⟩ := by
  have htb : trackBits c2 c3 = none := by
    unfold trackBits
    split <;> simp_all
  refine ⟨by decide, by decide, by decide, ?_⟩
  show parseStatus ⟨['0', '0', c2, c3, '0', '0', '0']⟩ = _
  unfold parseStatus
  simp [String.toList, digitVal, htb]

theorem claim_C8_tracking_decode_witness :
    (parseStatus (String.mk ['0', '1', '0', '1', '1', '1', '0'])).map
      Status.trackingBits = some (some Tracking.Independent) ∧
    (parseStatus (String.mk ['0', '1', '1', '1', '1', '1', '0'])).map
      Status.trackingBits = some (some Tracking.Series) ∧
    (parseStatus (String.mk ['0', '1', '1', '0', '1', '1', '0'])).map
      Status.trackingBits = some (some Tracking.Parallel) ∧
    parseStatus (String.mk ['0', '0', '9', '9', '0', '0', '0']) =
      some ⟨0, 0, none, false, false⟩ :=
  claim_C8_tracking_decode '9' '9' (by decide) (by decide) (by decide)

/-- Claim C9: evaluation of the code at the failing inputs.  For a
voltage-set, each of the three device error phrases is translated into a
raised classified error, as the claim states; but for a current-set the
same phrases are merely PRINTED — `Supply.__set_current` returns normally
with `False` — and `GPDX303S.__XSET` silently ignores an
"Invalid Character" response, issuing its exchange and reporting success.
So the claim holds for voltage-set operations and fails for current-set
operations. -/
theorem claim_C9_current_errors_printed :
    setVoltageResult .Series 1 40 (some "Data out of range") =
      .error (.voltageRange 40) ∧
    setVoltageResult .Series 2 5 (some "Command not allowed") =
      .error (.voltageNotAllowed 2 .Series) ∧
    setVoltageResult .Independent 3 5 (some "Invalid Character") =
      .error (.channelMissing 3) ∧
    setCurrentResult .Series 1 40 (some "Data out of range") =
      ([.currentRange 40], false) ∧
    setCurrentResult .Series 2 5 (some "Command not allowed") =
      ([.currentNotAllowed 2 .Series], false) ∧
    setCurrentResult .Independent 3 5 (some "Invalid Character") =
      ([.channelMissing 3], false) ∧
    xset ⟨some true, false, .Independent⟩ true 1 (some 5) "Invalid Character" =
      .ok [Cmd.iset 1 5] :=
  ⟨rfl, rfl, rfl, rfl, rfl, rfl, rfl⟩

/-- Claim C10: the remote-mode precheck is asymmetric on the tri-state
remote flag — the output setter, tracking setter and voltage/current set
raise the local-mode error exactly when the cached remote state is `False`;
when it is unknown (`None`) or `True` the operation proceeds and issues its
Transport command (for the tracking setter, provided the requested mode
differs from the cached one, and for `__XSET`, provided a value was in
fact requested and the device response carries no error phrase, since
those paths return without raising by design). -/
theorem claim_C10_remote_precheck (s : GPDState) (v : Bool) (t : Tracking)
    (q : ℚ) (isCur : Bool) (ch : Nat) (ht : t ≠ s.tracking) :
    (s.remote = some false →
      outputSetter s v = .error "Supply is in local mode" ∧
      trackingSetter s t = .error "Supply is in local mode" ∧
      xset s isCur ch (some q) "" = .error .localMode) ∧
    (s.remote ≠ some false →
      outputSetter s v = .ok [Cmd.out (if v then 1 else 0)] ∧
      trackingSetter s t = .ok ({ s with tracking := t }, [Cmd.track t.val]) ∧
      xset s isCur ch (some q) "" =
        .ok [if isCur then Cmd.iset ch q else Cmd.vset ch q]) := by
  constructor
  · intro h
    refine ⟨?_, ?_, ?_⟩ <;>
      simp [outputSetter, trackingSetter, xset, prechecksRemote, h]
  · intro h
    refine ⟨?_, ?_, ?_⟩
    · simp [outputSetter, prechecksRemote, h]
    · simp [trackingSetter, prechecksRemote, h, ht]
    · simp only [xset, prechecksRemote]
      rw [if_neg (by simp [h])]
      rfl

theorem claim_C10_remote_precheck_witness :
    ((⟨none, false, .Independent⟩ : GPDState).remote = some false →
      outputSetter ⟨none, false, .Independent⟩ true = .error "Supply is in local mode" ∧
      trackingSetter ⟨none, false, .Independent⟩ .Series =
        .error "Supply is in local mode" ∧
      xset ⟨none, false, .Independent⟩ false 1 (some 5) "" = .error .localMode) ∧
    ((⟨none, false, .Independent⟩ : GPDState).remote ≠ some false →
      outputSetter ⟨none, false, .Independent⟩ true =
        .ok [Cmd.out (if true then 1 else 0)] ∧
      trackingSetter ⟨none, false, .Independent⟩ .Series =
        .ok (⟨none, false, .Series⟩, [Cmd.track Tracking.Series.val]) ∧
      xset ⟨none, false, .Independent⟩ false 1 (some 5) "" =
        .ok [if false then Cmd.iset 1 5 else Cmd.vset 1 5]) :=
  claim_C10_remote_precheck ⟨none, false, .Independent⟩ true .Series 5 false 1
    (by decide)

end Instek
